import Mathlib

/-!
Verification of the actor episode-execution and credit-assignment pipeline
of `src/python/actor.py` (neurocuber).

The shallow embedding models the actor's pure control logic directly:

* `Lit`, `SP`, `TFQuery`, `Datapoint`, `Report` mirror the data the actor
  manipulates (literals, parsed problem instances, solver queries,
  `NeuroSATDatapoint`, `ActorEpisodeResult`).
* External collaborators (the aggregation server, the `play_asat` search
  procedure, the Z3 solver's `to_tf_query`) are modelled by an `Env`
  record: `asatResult` is the outcome the search procedure returns and
  `tfq` is the solver query function, a function of the assumption list.
* `play_episode` returns the ordered trace of outbound/solver effects
  (`Event`) together with the report sent to the server (if any), so that
  frame-effect claims (how many solver constructions, parameter pulls,
  report pushes) are provable facts about the trace.
* Floating-point arithmetic in `_compute_v` (`math.pow`) is modelled over
  the reals, with `Real.rpow` for `math.pow`.
-/

namespace Neurocuber

/-- A boolean variable, as returned by `lit.var()`; `idx` is `.idx()`. -/
structure Var where
  idx : Nat
deriving DecidableEq

/-- A signed literal over a variable, as stored in trails and cores. -/
structure Lit where
  var : Var
  pos : Bool
deriving DecidableEq

/-- A parsed problem instance (`sp`); only `n_vars()` and `n_clauses()`
are read by the actor. -/
structure SP where
  n_vars : Nat
  n_clauses : Nat
deriving DecidableEq

/-- The structured query returned by `s.to_tf_query(assumptions)`:
the free-variable list and the literal/clause index map `LC_idxs`. -/
structure TFQuery where
  fvars : List Nat
  LC_idxs : List (Nat × Nat)
deriving DecidableEq

/-- The reward-shaping constants read from the actor config by
`Actor._compute_v`. -/
structure ActorCfg where
  v_reward : ℝ
  v_reward_decay : ℝ
  v_reward_decay_steps : ℝ

/-- One `NeuroSATDatapoint` as constructed in `Actor.play_episode`. -/
structure Datapoint where
  n_vars : Nat
  n_clauses : Nat
  LC_idxs : List (Nat × Nat)
  target_var : Nat
  target_v : ℝ

/-- Default datapoint, used only as the fallback of `List.getD`. -/
def dpDefault : Datapoint := ⟨0, 0, [], 0, 0⟩

/-- One `ActorEpisodeResult`, the unit pushed to the server. -/
structure Report where
  dimacs : String
  cuber : String
  brancher : String
  estimate : ℝ
  datapoints : List Datapoint

/-- The observable effects of one episode, in program order:
a parameter pull from the server (`server.get_weights` fed into
`neuroquery.set_weights`), a solver construction (`_fresh_solver`),
the `play_asat` call, one `to_tf_query` call with its assumption list,
and a report push (`server.process_actor_episode`). -/
inductive Event where
  | pullWeights
  | freshSolver
  | asatCall
  | tfQueryCall (assumptions : List Lit)
  | pushReport (r : Report)

/-- The external collaborators of one episode: the result `play_asat`
returns (trail, core, estimate — or `none`), and the solver's
`to_tf_query` as a function of the assumption list. -/
structure Env where
  asatResult : Option (List Lit × List Lit × ℝ)
  tfq : List Lit → TFQuery

/-- `Actor._compute_v`: `steps = n_steps_left / cfg['v_reward_decay_steps']`,
then `cfg['v_reward'] * math.pow(cfg['v_reward_decay'], steps)`. -/
noncomputable def compute_v (cfg : ActorCfg) (n_steps_left : ℕ) : ℝ :=
  let steps : ℝ := (n_steps_left : ℝ) / cfg.v_reward_decay_steps
  cfg.v_reward * cfg.v_reward_decay ^ steps

/-- `min_trail = [lit for lit in trail if lit in core]`. -/
def min_trail (trail core : List Lit) : List Lit :=
  trail.filter (fun lit => decide (lit ∈ core))

/-- The training-sample generation loop of `Actor.play_episode`
(`for i in range(len(min_trail))`), from index `i` up: each iteration
queries the (single, shared) solver with the prefix `min_trail[:i]`,
breaks out of the whole loop if the free-variable list is empty, and
otherwise appends one datapoint. Returns the emitted solver-query events
together with the datapoints. -/
noncomputable def gen_loop (env : Env) (cfg : ActorCfg) (sp : SP)
    (mt : List Lit) (i : Nat) : List Event × List Datapoint :=
  if h : i < mt.length then
    let tfq := env.tfq (mt.take i)
    if tfq.fvars.length = 0 then
      ([Event.tfQueryCall (mt.take i)], [])
    else
      let target_var := (mt.get ⟨i, h⟩).var.idx
      let target_v := compute_v cfg (mt.length - i)
      let rest := gen_loop env cfg sp mt (i + 1)
      (Event.tfQueryCall (mt.take i) :: rest.1,
        ⟨sp.n_vars, sp.n_clauses, tfq.LC_idxs, target_var, target_v⟩ :: rest.2)
  else ([], [])
termination_by mt.length - i

/-- `Actor.play_episode(dimacs, sp, cuber, brancher)`: pull weights, build a
fresh solver, run `play_asat`; on `None` return immediately; otherwise, in
training mode build ONE further fresh solver and run the generation loop;
finally push one `ActorEpisodeResult`. Returns the effect trace and the
report pushed (if any). -/
noncomputable def play_episode (cfg : ActorCfg) (train : Bool) (env : Env)
    (dimacs : String) (sp : SP) (cuber brancher : String) :
    List Event × Option Report :=
  match env.asatResult with
  | none => ([Event.pullWeights, Event.freshSolver, Event.asatCall], none)
  | some (trail, core, estimate) =>
    let gen : List Event × List Datapoint :=
      if train then
        let mt := min_trail trail core
        let g := gen_loop env cfg sp mt 0
        (Event.freshSolver :: g.1, g.2)
      else ([], [])
    let report : Report := ⟨dimacs, cuber, brancher, estimate, gen.2⟩
    ([Event.pullWeights, Event.freshSolver, Event.asatCall] ++ gen.1 ++
        [Event.pushReport report],
      some report)

/-- The datapoints carried by the episode's report (empty when no report
was produced). -/
noncomputable def episode_datapoints (res : List Event × Option Report) :
    List Datapoint :=
  match res.2 with
  | none => []
  | some r => r.datapoints

/-- Event classifiers for counting the trace's effects. -/
def Event.isPull : Event → Bool
  | .pullWeights => true
  | _ => false

def Event.isPush : Event → Bool
  | .pushReport _ => true
  | _ => false

def Event.isFresh : Event → Bool
  | .freshSolver => true
  | _ => false

def Event.isQuery : Event → Bool
  | .tfQueryCall _ => true
  | _ => false

def pullCount (t : List Event) : Nat := (t.filter Event.isPull).length

def pushCount (t : List Event) : Nat := (t.filter Event.isPush).length

def freshCount (t : List Event) : Nat := (t.filter Event.isFresh).length

def queryCount (t : List Event) : Nat := (t.filter Event.isQuery).length

/-- The assumption lists of the solver-query events of a trace, in order. -/
def queryArgs (t : List Event) : List (List Lit) :=
  t.filterMap (fun e =>
    match e with
    | .tfQueryCall a => some a
    | _ => none)

/-- One pass of `Actor.loop` over every (instance, brancher, cuber) triple,
instances outer, branchers middle, cubers inner; `envf` supplies the
external collaborators for each triple. -/
noncomputable def loop_pass (cfg : ActorCfg) (train : Bool)
    (envf : String → String → String → Env)
    (sps : List (String × SP)) (branchers cubers : List String) :
    List (List Event × Option Report) :=
  sps.flatMap (fun dsp =>
    branchers.flatMap (fun brancher =>
      cubers.map (fun cuber =>
        play_episode cfg train (envf dsp.1 cuber brancher)
          dsp.1 dsp.2 cuber brancher)))

/-- One configured actor role: its worker count `n` and a tag standing for
the rest of its fields. -/
structure ActorInfo where
  n : Nat
  tag : Nat
deriving DecidableEq

/-- The accumulation loop of `get_actor_info`: `i` starts at 0, each role
adds its count, and the first role with `idx < i` is returned; falling off
the end is the raised configuration error, modelled as `none`. -/
def get_actor_info_aux (idx : Nat) : Nat → List ActorInfo → Option ActorInfo
  | _, [] => none
  | i, a :: rest =>
    if idx < i + a.n then some a else get_actor_info_aux idx (i + a.n) rest

/-- `get_actor_info(idx)` from the launcher. -/
def get_actor_info (actors : List ActorInfo) (idx : Nat) : Option ActorInfo :=
  get_actor_info_aux idx 0 actors

/-- Total declared worker count (`n_actors_total`). -/
def total_n (actors : List ActorInfo) : Nat := (actors.map ActorInfo.n).sum

/-- `os.path.join(root, dimacs)` for the paths the corpus walk produces. -/
def os_path_join (root name : String) : String := root ++ "/" ++ name

/-- The corpus-loading loop of `Actor.__init__`: for each directory
`(root, files)` of the walk, append `(dimacs, parse_dimacs(join(root,
dimacs)))` — the stored identifier is the bare file name. -/
def load_sps (parse_dimacs : String → SP)
    (walk : List (String × List String)) : List (String × SP) :=
  walk.flatMap (fun rd =>
    rd.2.map (fun dimacs => (dimacs, parse_dimacs (os_path_join rd.1 dimacs))))

/-! ### Concrete data used by witnesses and counterexamples -/

def litA : Lit := ⟨⟨0⟩, true⟩

def litB : Lit := ⟨⟨1⟩, true⟩

def litC : Lit := ⟨⟨2⟩, true⟩

/-- A trail of 3 literals. -/
def trailW : List Lit := [litA, litB, litC]

/-- A core consisting of 2 of the trail's literals. -/
def coreW : List Lit := [litA, litB]

/-- A 3-variable, 2-constraint instance. -/
def spW : SP := ⟨3, 2⟩

/-- Reward constants: `v_reward = 1`, `v_reward_decay = 1/2`,
`v_reward_decay_steps = 1`. -/
noncomputable def cfgW : ActorCfg := ⟨1, 1 / 2, 1⟩

/-- A solver whose queries always report one free variable. -/
def tfqNonempty : List Lit → TFQuery := fun _ => ⟨[0], [(0, 0)]⟩

/-- A solver whose queries report a free variable only under the empty
assumption prefix, so generation halts at index 1. -/
def tfqStop1 : List Lit → TFQuery := fun a =>
  if a.length = 0 then ⟨[0], [(0, 0)]⟩ else ⟨[], []⟩

/-- A successful search outcome with never-empty queries. -/
noncomputable def envW : Env := ⟨some (trailW, coreW, 0), tfqNonempty⟩

/-- A successful search outcome whose queries dry up at prefix length 1. -/
noncomputable def envStop1 : Env := ⟨some (trailW, coreW, 0), tfqStop1⟩

/-- An aborted search (`play_asat` returned `None`). -/
noncomputable def envNone : Env := ⟨none, tfqNonempty⟩

def dimacsW : String := "problem.dimacs"

def cuberW : String := "neuro-cuber"

def brancherW : String := "neuro-brancher"

def role0 : ActorInfo := ⟨3, 0⟩

def role1 : ActorInfo := ⟨2, 1⟩

def role2 : ActorInfo := ⟨5, 2⟩

/-- Roles with worker counts `[3, 2, 5]`. -/
def roles325 : List ActorInfo := [role0, role1, role2]

def dirA : String := "corpus/easy"

def dirB : String := "corpus/hard"

/-! ### Unfolding equations for the generation loop -/

theorem gen_loop_past (env : Env) (cfg : ActorCfg) (sp : SP) (mt : List Lit)
    (i : Nat) (hi : ¬ i < mt.length) :
    gen_loop env cfg sp mt i = ([], []) := by
  rw [gen_loop]
  simp [hi]

theorem gen_loop_halt (env : Env) (cfg : ActorCfg) (sp : SP) (mt : List Lit)
    (i : Nat) (hi : i < mt.length)
    (he : (env.tfq (mt.take i)).fvars.length = 0) :
    gen_loop env cfg sp mt i = ([Event.tfQueryCall (mt.take i)], []) := by
  rw [gen_loop]
  simp [hi, he]

theorem gen_loop_cons (env : Env) (cfg : ActorCfg) (sp : SP) (mt : List Lit)
    (i : Nat) (hi : i < mt.length)
    (he : ¬ (env.tfq (mt.take i)).fvars.length = 0) :
    gen_loop env cfg sp mt i =
      (Event.tfQueryCall (mt.take i) :: (gen_loop env cfg sp mt (i + 1)).1,
        ⟨sp.n_vars, sp.n_clauses, (env.tfq (mt.take i)).LC_idxs,
          (mt.get ⟨i, hi⟩).var.idx, compute_v cfg (mt.length - i)⟩ ::
          (gen_loop env cfg sp mt (i + 1)).2) := by
  rw [gen_loop]
  simp [hi, he]

/-! ### Structural facts about the generation loop, by fuel induction -/

theorem gen_loop_len_aux (env : Env) (cfg : ActorCfg) (sp : SP)
    (mt : List Lit) :
    ∀ k i, mt.length - i ≤ k →
      (gen_loop env cfg sp mt i).2.length ≤ mt.length - i := by
  intro k
  induction k with
  | zero =>
    intro i h
    rw [gen_loop_past env cfg sp mt i (by omega)]
    simp
  | succ k ih =>
    intro i h
    by_cases hi : i < mt.length
    · by_cases he : (env.tfq (mt.take i)).fvars.length = 0
      · rw [gen_loop_halt env cfg sp mt i hi he]
        simp
      · rw [gen_loop_cons env cfg sp mt i hi he]
        have hrec := ih (i + 1) (by omega)
        simp only [List.length_cons]
        omega
    · rw [gen_loop_past env cfg sp mt i hi]
      simp

theorem gen_loop_early_aux (env : Env) (cfg : ActorCfg) (sp : SP)
    (mt : List Lit) :
    ∀ k i j, mt.length - i ≤ k → i ≤ j → j < mt.length →
      (env.tfq (mt.take j)).fvars = [] →
      (gen_loop env cfg sp mt i).2.length ≤ j - i := by
  intro k
  induction k with
  | zero =>
    intro i j h hij hj he
    rw [gen_loop_past env cfg sp mt i (by omega)]
    simp
  | succ k ih =>
    intro i j h hij hj he
    by_cases hi : i < mt.length
    · rcases Nat.eq_or_lt_of_le hij with heq | hlt
      · subst heq
        rw [gen_loop_halt env cfg sp mt i hi (by simp [he])]
        simp
      · by_cases hei : (env.tfq (mt.take i)).fvars.length = 0
        · rw [gen_loop_halt env cfg sp mt i hi hei]
          simp
        · rw [gen_loop_cons env cfg sp mt i hi hei]
          have hrec := ih (i + 1) j (by omega) (by omega) hj he
          simp only [List.length_cons]
          omega
    · rw [gen_loop_past env cfg sp mt i hi]
      simp

theorem gen_loop_events_query_aux (env : Env) (cfg : ActorCfg) (sp : SP)
    (mt : List Lit) :
    ∀ k i, mt.length - i ≤ k →
      ∀ e ∈ (gen_loop env cfg sp mt i).1, e.isQuery = true := by
  intro k
  induction k with
  | zero =>
    intro i h
    rw [gen_loop_past env cfg sp mt i (by omega)]
    simp
  | succ k ih =>
    intro i h
    by_cases hi : i < mt.length
    · by_cases he : (env.tfq (mt.take i)).fvars.length = 0
      · rw [gen_loop_halt env cfg sp mt i hi he]
        simp [Event.isQuery]
      · rw [gen_loop_cons env cfg sp mt i hi he]
        intro e hmem
        rcases List.mem_cons.mp hmem with rfl | hmem
        · rfl
        · exact ih (i + 1) (by omega) e hmem
    · rw [gen_loop_past env cfg sp mt i hi]
      simp

theorem gen_loop_query_args_aux (env : Env) (cfg : ActorCfg) (sp : SP)
    (mt : List Lit) :
    ∀ k i, mt.length - i ≤ k →
      ∀ j, j < (queryArgs (gen_loop env cfg sp mt i).1).length →
        (queryArgs (gen_loop env cfg sp mt i).1).getD j [] = mt.take (i + j) := by
  intro k
  induction k with
  | zero =>
    intro i h
    rw [gen_loop_past env cfg sp mt i (by omega)]
    simp [queryArgs]
  | succ k ih =>
    intro i h
    by_cases hi : i < mt.length
    · by_cases he : (env.tfq (mt.take i)).fvars.length = 0
      · rw [gen_loop_halt env cfg sp mt i hi he]
        intro j hj
        have hj1 : j < 1 := by simpa [queryArgs] using hj
        have hj0 : j = 0 := by omega
        subst hj0
        simp [queryArgs]
      · rw [gen_loop_cons env cfg sp mt i hi he]
        intro j hj
        simp only [queryArgs, List.filterMap_cons] at hj ⊢
        rcases j with _ | j
        · simp
        · simp only [List.getD_cons_succ, List.length_cons] at hj ⊢
          have hrec := ih (i + 1) (by omega) j (by simpa [queryArgs] using hj)
          simpa [queryArgs, Nat.add_assoc, Nat.add_comm 1 j] using hrec
    · rw [gen_loop_past env cfg sp mt i hi]
      simp [queryArgs]

theorem gen_loop_dp_mem_aux (env : Env) (cfg : ActorCfg) (sp : SP)
    (mt : List Lit) :
    ∀ k i, mt.length - i ≤ k →
      ∀ dp ∈ (gen_loop env cfg sp mt i).2,
        dp.n_vars = sp.n_vars ∧ dp.n_clauses = sp.n_clauses := by
  intro k
  induction k with
  | zero =>
    intro i h
    rw [gen_loop_past env cfg sp mt i (by omega)]
    simp
  | succ k ih =>
    intro i h
    by_cases hi : i < mt.length
    · by_cases he : (env.tfq (mt.take i)).fvars.length = 0
      · rw [gen_loop_halt env cfg sp mt i hi he]
        simp
      · rw [gen_loop_cons env cfg sp mt i hi he]
        intro dp hmem
        rcases List.mem_cons.mp hmem with rfl | hmem
        · exact ⟨rfl, rfl⟩
        · exact ih (i + 1) (by omega) dp hmem
    · rw [gen_loop_past env cfg sp mt i hi]
      simp

theorem gen_loop_dp_getD_aux (env : Env) (cfg : ActorCfg) (sp : SP)
    (mt : List Lit) :
    ∀ k i, mt.length - i ≤ k →
      ∀ j, j < (gen_loop env cfg sp mt i).2.length →
        ((gen_loop env cfg sp mt i).2.getD j dpDefault).target_v =
          compute_v cfg (mt.length - (i + j)) := by
  intro k
  induction k with
  | zero =>
    intro i h
    rw [gen_loop_past env cfg sp mt i (by omega)]
    simp
  | succ k ih =>
    intro i h
    by_cases hi : i < mt.length
    · by_cases he : (env.tfq (mt.take i)).fvars.length = 0
      · rw [gen_loop_halt env cfg sp mt i hi he]
        simp
      · rw [gen_loop_cons env cfg sp mt i hi he]
        intro j hj
        rcases j with _ | j
        · simp
        · simp only [List.getD_cons_succ, List.length_cons] at hj ⊢
          have hrec := ih (i + 1) (by omega) j (by omega)
          rw [hrec]
          congr 1
          omega
    · rw [gen_loop_past env cfg sp mt i hi]
      simp

theorem gen_loop_len (env : Env) (cfg : ActorCfg) (sp : SP) (mt : List Lit)
    (i : Nat) : (gen_loop env cfg sp mt i).2.length ≤ mt.length - i :=
  gen_loop_len_aux env cfg sp mt mt.length i (by omega)

theorem gen_loop_early (env : Env) (cfg : ActorCfg) (sp : SP) (mt : List Lit)
    (i j : Nat) (hij : i ≤ j) (hj : j < mt.length)
    (he : (env.tfq (mt.take j)).fvars = []) :
    (gen_loop env cfg sp mt i).2.length ≤ j - i :=
  gen_loop_early_aux env cfg sp mt mt.length i j (by omega) hij hj he

theorem gen_loop_events_query (env : Env) (cfg : ActorCfg) (sp : SP)
    (mt : List Lit) (i : Nat) :
    ∀ e ∈ (gen_loop env cfg sp mt i).1, e.isQuery = true :=
  gen_loop_events_query_aux env cfg sp mt mt.length i (by omega)

theorem gen_loop_query_args (env : Env) (cfg : ActorCfg) (sp : SP)
    (mt : List Lit) (i : Nat) :
    ∀ j, j < (queryArgs (gen_loop env cfg sp mt i).1).length →
      (queryArgs (gen_loop env cfg sp mt i).1).getD j [] = mt.take (i + j) :=
  gen_loop_query_args_aux env cfg sp mt mt.length i (by omega)

theorem gen_loop_dp_mem (env : Env) (cfg : ActorCfg) (sp : SP) (mt : List Lit)
    (i : Nat) :
    ∀ dp ∈ (gen_loop env cfg sp mt i).2,
      dp.n_vars = sp.n_vars ∧ dp.n_clauses = sp.n_clauses :=
  gen_loop_dp_mem_aux env cfg sp mt mt.length i (by omega)

theorem gen_loop_dp_getD (env : Env) (cfg : ActorCfg) (sp : SP) (mt : List Lit)
    (i : Nat) :
    ∀ j, j < (gen_loop env cfg sp mt i).2.length →
      ((gen_loop env cfg sp mt i).2.getD j dpDefault).target_v =
        compute_v cfg (mt.length - (i + j)) :=
  gen_loop_dp_getD_aux env cfg sp mt mt.length i (by omega)

/-! ### Facts about the value target function -/

theorem compute_v_zero (cfg : ActorCfg) : compute_v cfg 0 = cfg.v_reward := by
  simp [compute_v, Real.rpow_zero]

theorem compute_v_lt (cfg : ActorCfg) (hr : 0 < cfg.v_reward)
    (hd0 : 0 < cfg.v_reward_decay) (hd1 : cfg.v_reward_decay < 1)
    (hs : 0 < cfg.v_reward_decay_steps) {m n : ℕ} (hmn : m < n) :
    compute_v cfg n < compute_v cfg m := by
  unfold compute_v
  apply mul_lt_mul_of_pos_left _ hr
  apply Real.rpow_lt_rpow_of_exponent_gt hd0 hd1
  rw [div_lt_div_iff_of_pos_right hs]
  exact_mod_cast hmn

/-! ### Unfolding equations for the episode step -/

theorem play_episode_none (cfg : ActorCfg) (train : Bool) (env : Env)
    (dimacs : String) (sp : SP) (cuber brancher : String)
    (h : env.asatResult = none) :
    play_episode cfg train env dimacs sp cuber brancher =
      ([Event.pullWeights, Event.freshSolver, Event.asatCall], none) := by
  unfold play_episode
  rw [h]

theorem play_episode_train (cfg : ActorCfg) (env : Env) (dimacs : String)
    (sp : SP) (cuber brancher : String) (trail core : List Lit) (estimate : ℝ)
    (h : env.asatResult = some (trail, core, estimate)) :
    play_episode cfg true env dimacs sp cuber brancher =
      ([Event.pullWeights, Event.freshSolver, Event.asatCall] ++
          (Event.freshSolver :: (gen_loop env cfg sp (min_trail trail core) 0).1) ++
          [Event.pushReport ⟨dimacs, cuber, brancher, estimate,
            (gen_loop env cfg sp (min_trail trail core) 0).2⟩],
        some ⟨dimacs, cuber, brancher, estimate,
          (gen_loop env cfg sp (min_trail trail core) 0).2⟩) := by
  unfold play_episode
  rw [h]
  rfl

theorem play_episode_notrain (cfg : ActorCfg) (env : Env) (dimacs : String)
    (sp : SP) (cuber brancher : String) (trail core : List Lit) (estimate : ℝ)
    (h : env.asatResult = some (trail, core, estimate)) :
    play_episode cfg false env dimacs sp cuber brancher =
      ([Event.pullWeights, Event.freshSolver, Event.asatCall] ++
          [Event.pushReport ⟨dimacs, cuber, brancher, estimate, []⟩],
        some ⟨dimacs, cuber, brancher, estimate, []⟩) := by
  unfold play_episode
  rw [h]
  rfl

theorem get_actor_info_aux_none (idx : Nat) :
    ∀ (actors : List ActorInfo) (i : Nat), i + total_n actors ≤ idx →
      get_actor_info_aux idx i actors = none := by
  intro actors
  induction actors with
  | nil => intro i h; rfl
  | cons a rest ih =>
    intro i h
    simp only [total_n, List.map_cons, List.sum_cons] at h
    simp only [get_actor_info_aux]
    rw [if_neg (by omega)]
    refine ih (i + a.n) ?_
    simp only [total_n]
    omega

theorem query_not_push {e : Event} (h : e.isQuery = true) :
    e.isPush = false := by
  cases e <;> simp_all [Event.isQuery, Event.isPush]

theorem query_not_pull {e : Event} (h : e.isQuery = true) :
    e.isPull = false := by
  cases e <;> simp_all [Event.isQuery, Event.isPull]

theorem query_not_fresh {e : Event} (h : e.isQuery = true) :
    e.isFresh = false := by
  cases e <;> simp_all [Event.isQuery, Event.isFresh]

theorem gen_trace_push_nil (env : Env) (cfg : ActorCfg) (sp : SP)
    (mt : List Lit) (i : Nat) :
    (gen_loop env cfg sp mt i).1.filter Event.isPush = [] := by
  rw [List.filter_eq_nil_iff]
  intro e he
  simp [query_not_push (gen_loop_events_query env cfg sp mt i e he)]

theorem gen_trace_pull_nil (env : Env) (cfg : ActorCfg) (sp : SP)
    (mt : List Lit) (i : Nat) :
    (gen_loop env cfg sp mt i).1.filter Event.isPull = [] := by
  rw [List.filter_eq_nil_iff]
  intro e he
  simp [query_not_pull (gen_loop_events_query env cfg sp mt i e he)]

theorem gen_trace_fresh_nil (env : Env) (cfg : ActorCfg) (sp : SP)
    (mt : List Lit) (i : Nat) :
    (gen_loop env cfg sp mt i).1.filter Event.isFresh = [] := by
  rw [List.filter_eq_nil_iff]
  intro e he
  simp [query_not_fresh (gen_loop_events_query env cfg sp mt i e he)]

theorem min_trail_length_of_nodup (trail core : List Lit)
    (hnd : trail.Nodup) (hndc : core.Nodup) (hsub : core ⊆ trail) :
    (min_trail trail core).length = core.length := by
  have h1 : (min_trail trail core).Nodup := hnd.filter _
  have h2 : min_trail trail core ⊆ core := by
    intro l hl
    have := List.of_mem_filter hl
    simpa using this
  have h3 : core ⊆ min_trail trail core := by
    intro l hl
    exact List.mem_filter.mpr ⟨hsub hl, by simpa using hl⟩
  exact Nat.le_antisymm ((h1.subperm h2).length_le)
    ((hndc.subperm h3).length_le)

/-- Concrete evaluation of the generation loop under `envW`: two queries
(with prefixes `[]` and `[litA]`) and two datapoints. -/
theorem gen_loop_envW_eval :
    gen_loop envW cfgW spW [litA, litB] 0 =
      ([Event.tfQueryCall [], Event.tfQueryCall [litA]],
        [⟨3, 2, [(0, 0)], 0, compute_v cfgW 2⟩,
          ⟨3, 2, [(0, 0)], 1, compute_v cfgW 1⟩]) := by
  rw [gen_loop_cons envW cfgW spW [litA, litB] 0 (by decide) (by decide),
    gen_loop_cons envW cfgW spW [litA, litB] 1 (by decide) (by decide),
    gen_loop_past envW cfgW spW [litA, litB] 2 (by decide)]
  rfl

theorem min_trail_W_eval : min_trail trailW coreW = [litA, litB] := by
  decide

/-! ### The claims -/

/-- C2: for every trail `T` and core `C` with `C ⊆ T`, `min_trail` equals
the filter of `T` by membership in `C`, is an order-preserving
subsequence (sublist) of `T`, and `len(min_trail) ≤ len(T)`. -/
theorem C2_min_trail_subsequence (trail core : List Lit)
    (hsub : core ⊆ trail) :
    min_trail trail core = trail.filter (fun lit => decide (lit ∈ core)) ∧
      (min_trail trail core).Sublist trail ∧
      (min_trail trail core).length ≤ trail.length :=
  ⟨rfl, List.filter_sublist trail, (List.filter_sublist trail).length_le⟩

/-- Witness for C2 at a concrete trail and core. -/
theorem C2_witness :
    coreW ⊆ trailW ∧
      (min_trail trailW coreW =
          trailW.filter (fun lit => decide (lit ∈ coreW)) ∧
        (min_trail trailW coreW).Sublist trailW ∧
        (min_trail trailW coreW).length ≤ trailW.length) :=
  ⟨by decide, C2_min_trail_subsequence trailW coreW (by decide)⟩

/-- C7: the value target function satisfies
`compute_v(n_steps_left) = reward_base * decay_rate ^ (n_steps_left /
decay_scale)` for every `n_steps_left`, with `reward_base = v_reward`,
`decay_rate = v_reward_decay`, `decay_scale = v_reward_decay_steps`. -/
theorem C7_compute_v_formula (cfg : ActorCfg) (n_steps_left : ℕ) :
    compute_v cfg n_steps_left =
      cfg.v_reward *
        cfg.v_reward_decay ^ ((n_steps_left : ℝ) / cfg.v_reward_decay_steps) :=
  rfl

/-- C8: with `0 < decay_rate < 1` and positive `reward_base` and
`decay_scale`, `compute_v` is strictly monotone decreasing in
`n_steps_left` — a smaller `n_steps_left` yields a strictly larger target
value — and `compute_v 0 = reward_base`. -/
theorem C8_compute_v_monotone (cfg : ActorCfg)
    (hr : 0 < cfg.v_reward) (hd0 : 0 < cfg.v_reward_decay)
    (hd1 : cfg.v_reward_decay < 1) (hs : 0 < cfg.v_reward_decay_steps)
    (m n : ℕ) (hmn : m < n) :
    compute_v cfg n < compute_v cfg m ∧ compute_v cfg 0 = cfg.v_reward :=
  ⟨compute_v_lt cfg hr hd0 hd1 hs hmn, compute_v_zero cfg⟩

/-- Witness for C8 at the concrete config `(1, 1/2, 1)` and steps `0 < 1`. -/
theorem C8_witness :
    (0 : ℝ) < cfgW.v_reward ∧ 0 < cfgW.v_reward_decay ∧
      cfgW.v_reward_decay < 1 ∧ 0 < cfgW.v_reward_decay_steps ∧
      compute_v cfgW 1 < compute_v cfgW 0 ∧
      compute_v cfgW 0 = cfgW.v_reward :=
  ⟨by norm_num [cfgW], by norm_num [cfgW], by norm_num [cfgW],
    by norm_num [cfgW],
    (C8_compute_v_monotone cfgW (by norm_num [cfgW]) (by norm_num [cfgW])
      (by norm_num [cfgW]) (by norm_num [cfgW]) 0 1 (by norm_num)).1,
    (C8_compute_v_monotone cfgW (by norm_num [cfgW]) (by norm_num [cfgW])
      (by norm_num [cfgW]) (by norm_num [cfgW]) 0 1 (by norm_num)).2⟩

/-- C9: role lookup walks the declared roles in order accumulating counts
and returns the first role whose cumulative count exceeds the index; for
counts `[3,2,5]`, indices 0..2 map to role 0, 3..4 to role 1, 5..9 to
role 2, and any index at or beyond the total count is a configuration
error (the raise, modelled as `none`). -/
theorem C9_role_lookup (idx : Nat) :
    (idx < 3 → get_actor_info roles325 idx = some role0) ∧
      (3 ≤ idx → idx < 5 → get_actor_info roles325 idx = some role1) ∧
      (5 ≤ idx → idx < 10 → get_actor_info roles325 idx = some role2) ∧
      (∀ (actors : List ActorInfo) (j : Nat), total_n actors ≤ j →
        get_actor_info actors j = none) := by
  refine ⟨?_, ?_, ?_, ?_⟩
  · intro h
    simp only [get_actor_info, roles325, role0, get_actor_info_aux]
    rw [if_pos (by omega)]
  · intro h3 h5
    simp only [get_actor_info, roles325, role0, role1, get_actor_info_aux]
    rw [if_neg (by omega), if_pos (by omega)]
  · intro h5 h10
    simp only [get_actor_info, roles325, role0, role1, role2,
      get_actor_info_aux]
    rw [if_neg (by omega), if_neg (by omega), if_pos (by omega)]
  · intro actors j h
    exact get_actor_info_aux_none j actors 0 (by omega)

/-- Witness for C9 at concrete indices 2, 4, 9 and 10. -/
theorem C9_witness :
    get_actor_info roles325 2 = some role0 ∧
      get_actor_info roles325 4 = some role1 ∧
      get_actor_info roles325 9 = some role2 ∧
      get_actor_info roles325 10 = none :=
  ⟨(C9_role_lookup 2).1 (by norm_num),
    (C9_role_lookup 4).2.1 (by norm_num) (by norm_num),
    (C9_role_lookup 9).2.2.1 (by norm_num) (by norm_num),
    (C9_role_lookup 10).2.2.2 roles325 10 (by decide)⟩

/-- C1: in training mode, a successful episode produces at most
`len(min_trail)` training examples, and the loop halts at the first prefix
index whose query has no free variables: if the query at index `i` is
empty, no example exists for `i` or any later index, so at most `i`
examples are produced. -/
theorem C1_generation_bound (cfg : ActorCfg) (env : Env) (dimacs : String)
    (sp : SP) (cuber brancher : String) (trail core : List Lit)
    (estimate : ℝ) (hres : env.asatResult = some (trail, core, estimate)) :
    (episode_datapoints
        (play_episode cfg true env dimacs sp cuber brancher)).length ≤
        (min_trail trail core).length ∧
      ∀ i, i < (min_trail trail core).length →
        (env.tfq ((min_trail trail core).take i)).fvars = [] →
        (episode_datapoints
            (play_episode cfg true env dimacs sp cuber brancher)).length ≤
          i := by
  rw [play_episode_train cfg env dimacs sp cuber brancher trail core
    estimate hres]
  constructor
  · simpa [episode_datapoints] using
      gen_loop_len env cfg sp (min_trail trail core) 0
  · intro i hi he
    simpa [episode_datapoints] using
      gen_loop_early env cfg sp (min_trail trail core) 0 i (Nat.zero_le i)
        hi he

/-- Witness for C1: with queries drying up at prefix length 1 the episode
yields at most one example though `min_trail` has two literals. -/
theorem C1_witness :
    envStop1.asatResult = some (trailW, coreW, 0) ∧
      1 < (min_trail trailW coreW).length ∧
      (envStop1.tfq ((min_trail trailW coreW).take 1)).fvars = [] ∧
      (episode_datapoints
          (play_episode cfgW true envStop1 dimacsW spW cuberW
            brancherW)).length ≤ 1 :=
  ⟨rfl, by decide, by decide,
    (C1_generation_bound cfgW envStop1 dimacsW spW cuberW brancherW trailW
        coreW 0 rfl).2 1 (by decide) (by decide)⟩

/-- C3: an absent search outcome produces no report (hence zero training
examples), performs no report push and no generation query, and the actor
loop still visits every (instance, brancher, cuber) triple. -/
theorem C3_none_outcome (cfg : ActorCfg) (train : Bool) (env : Env)
    (dimacs : String) (sp : SP) (cuber brancher : String)
    (hres : env.asatResult = none) :
    (play_episode cfg train env dimacs sp cuber brancher).2 = none ∧
      episode_datapoints
          (play_episode cfg train env dimacs sp cuber brancher) = [] ∧
      pushCount (play_episode cfg train env dimacs sp cuber brancher).1 = 0 ∧
      queryCount (play_episode cfg train env dimacs sp cuber brancher).1 = 0 ∧
      ∀ (envf : String → String → String → Env) (sps : List (String × SP))
        (branchers cubers : List String),
        (loop_pass cfg train envf sps branchers cubers).length =
          sps.length * (branchers.length * cubers.length) := by
  rw [play_episode_none cfg train env dimacs sp cuber brancher hres]
  refine ⟨rfl, rfl, rfl, rfl, ?_⟩
  intro envf sps branchers cubers
  simp [loop_pass, List.length_flatMap, Function.comp_def, List.length_map,
    List.map_const', List.sum_replicate, smul_eq_mul]

/-- Witness for C3 at a concrete aborted episode. -/
theorem C3_witness :
    envNone.asatResult = none ∧
      (play_episode cfgW true envNone dimacsW spW cuberW brancherW).2 =
        none ∧
      episode_datapoints
          (play_episode cfgW true envNone dimacsW spW cuberW brancherW) =
        [] ∧
      pushCount
          (play_episode cfgW true envNone dimacsW spW cuberW brancherW).1 =
        0 :=
  ⟨rfl,
    (C3_none_outcome cfgW true envNone dimacsW spW cuberW brancherW rfl).1,
    (C3_none_outcome cfgW true envNone dimacsW spW cuberW brancherW
      rfl).2.1,
    (C3_none_outcome cfgW true envNone dimacsW spW cuberW brancherW
      rfl).2.2.1⟩

/-- C10: the identifier stored with each loaded instance is the file's
bare base name, not its full path: a corpus holding the same file name in
two different subdirectories stores both instances under that single
name although their parsed paths differ, and every report's `dimacs`
field is exactly the stored identifier the episode was invoked with. -/
theorem C10_base_name_identifier (parse_dimacs : String → SP)
    (r1 r2 name : String) (hdir : r1 ≠ r2) :
    load_sps parse_dimacs [(r1, [name]), (r2, [name])] =
        [(name, parse_dimacs (os_path_join r1 name)),
          (name, parse_dimacs (os_path_join r2 name))] ∧
      os_path_join r1 name ≠ os_path_join r2 name ∧
      ∀ (cfg : ActorCfg) (train : Bool) (env : Env) (sp : SP)
        (cuber brancher : String) (r : Report),
        (play_episode cfg train env name sp cuber brancher).2 = some r →
        r.dimacs = name := by
  refine ⟨by simp [load_sps], ?_, ?_⟩
  · intro h
    apply hdir
    have h2 := congrArg String.data h
    simp only [os_path_join, String.data_append] at h2
    exact String.ext
      (List.append_cancel_right (List.append_cancel_right h2))
  · intro cfg train env sp cuber brancher r hr
    unfold play_episode at hr
    rcases henv : env.asatResult with _ | ⟨⟨trail, core, est⟩⟩ <;>
      rw [henv] at hr
    · simp at hr
    · simp only at hr
      have h3 := Option.some.inj hr
      rw [← h3]

/-- Witness for C10: the directories `corpus/easy` and `corpus/hard` both
hold a file `problem.dimacs`; both instances are stored and reported under
that one base name though the parsed paths differ. -/
theorem C10_witness :
    dirA ≠ dirB ∧
      os_path_join dirA dimacsW ≠ os_path_join dirB dimacsW ∧
      (play_episode cfgW true envW dimacsW spW cuberW brancherW).2.map
          Report.dimacs = some dimacsW := by
  refine ⟨by decide,
    (C10_base_name_identifier (fun _ => spW) dirA dirB dimacsW
      (by decide)).2.1, ?_⟩
  have hsome : (play_episode cfgW true envW dimacsW spW cuberW
      brancherW).2 = some ⟨dimacsW, cuberW, brancherW, 0,
        (gen_loop envW cfgW spW (min_trail trailW coreW) 0).2⟩ := by
    rw [play_episode_train cfgW envW dimacsW spW cuberW brancherW trailW
      coreW 0 rfl]
  have hd := (C10_base_name_identifier (fun _ => spW) dirA dirB dimacsW
    (by decide)).2.2 cfgW true envW spW cuberW brancherW _ hsome
  rw [hsome]
  simpa only [Option.map_some'] using congrArg some hd

/-- C6 counterexample: an episode whose search outcome is absent performs
its one parameter pull but pushes NO report, refuting "exactly one
outbound report push" for every episode step. -/
theorem C6_counterexample :
    pullCount (play_episode cfgW true envNone dimacsW spW cuberW
        brancherW).1 = 1 ∧
      pushCount (play_episode cfgW true envNone dimacsW spW cuberW
        brancherW).1 = 0 ∧
      ¬ pushCount (play_episode cfgW true envNone dimacsW spW cuberW
          brancherW).1 = 1 := by
  rw [play_episode_none cfgW true envNone dimacsW spW cuberW brancherW rfl]
  refine ⟨rfl, rfl, by decide⟩

/-- C6 amended: every episode step performs exactly one outbound parameter
pull, and the pull precedes the search call; it performs exactly one
outbound report push when the search outcome is present and none when the
outcome is absent. -/
theorem C6_pull_push (cfg : ActorCfg) (train : Bool) (env : Env)
    (dimacs : String) (sp : SP) (cuber brancher : String) :
    pullCount (play_episode cfg train env dimacs sp cuber brancher).1 = 1 ∧
      (play_episode cfg train env dimacs sp cuber brancher).1.take 3 =
        [Event.pullWeights, Event.freshSolver, Event.asatCall] ∧
      (env.asatResult = none →
        pushCount (play_episode cfg train env dimacs sp cuber
          brancher).1 = 0) ∧
      (∀ (trail core : List Lit) (estimate : ℝ),
        env.asatResult = some (trail, core, estimate) →
        pushCount (play_episode cfg train env dimacs sp cuber
          brancher).1 = 1) := by
  rcases henv : env.asatResult with _ | ⟨⟨trail, core, est⟩⟩
  · rw [play_episode_none cfg train env dimacs sp cuber brancher henv]
    refine ⟨rfl, rfl, fun _ => rfl, ?_⟩
    intro trail core estimate h
    simp at h
  · cases train
    · rw [play_episode_notrain cfg env dimacs sp cuber brancher trail core
        est henv]
      refine ⟨rfl, rfl, ?_, fun _ _ _ _ => rfl⟩
      intro h
      simp at h
    · rw [play_episode_train cfg env dimacs sp cuber brancher trail core
        est henv]
      refine ⟨?_, rfl, ?_, ?_⟩
      · simp [pullCount, List.filter_append, Event.isPull,
          gen_trace_pull_nil env cfg sp (min_trail trail core) 0]
      · intro h
        simp at h
      · intro trail2 core2 estimate2 h
        simp [pushCount, List.filter_append, Event.isPush,
          gen_trace_push_nil env cfg sp (min_trail trail core) 0]

/-- Witness for C6: a successful training episode performs one pull and
one push. -/
theorem C6_witness :
    pullCount (play_episode cfgW true envW dimacsW spW cuberW
        brancherW).1 = 1 ∧
      pushCount (play_episode cfgW true envW dimacsW spW cuberW
        brancherW).1 = 1 ∧
      envW.asatResult = some (trailW, coreW, 0) :=
  ⟨(C6_pull_push cfgW true envW dimacsW spW cuberW brancherW).1,
    (C6_pull_push cfgW true envW dimacsW spW cuberW brancherW).2.2.2
      trailW coreW 0 rfl, rfl⟩

theorem episode_fresh_count (cfg : ActorCfg) (env : Env) (dimacs : String)
    (sp : SP) (cuber brancher : String) (trail core : List Lit)
    (estimate : ℝ) (hres : env.asatResult = some (trail, core, estimate)) :
    freshCount (play_episode cfg true env dimacs sp cuber brancher).1 =
      2 := by
  rw [play_episode_train cfg env dimacs sp cuber brancher trail core
    estimate hres]
  simp [freshCount, List.filter_append, Event.isFresh,
    gen_trace_fresh_nil env cfg sp (min_trail trail core) 0]

theorem episode_query_args (cfg : ActorCfg) (env : Env) (dimacs : String)
    (sp : SP) (cuber brancher : String) (trail core : List Lit)
    (estimate : ℝ) (hres : env.asatResult = some (trail, core, estimate)) :
    queryArgs (play_episode cfg true env dimacs sp cuber brancher).1 =
      queryArgs (gen_loop env cfg sp (min_trail trail core) 0).1 := by
  rw [play_episode_train cfg env dimacs sp cuber brancher trail core
    estimate hres]
  simp [queryArgs, List.filterMap_append]

/-- C5 counterexample: a successful training episode that processes two
generation indices (two solver queries) builds only TWO solvers in the
whole trace — one for the search and one shared by both generation
queries — not one fresh solver per index (which would give three). -/
theorem C5_counterexample :
    queryCount (play_episode cfgW true envW dimacsW spW cuberW
        brancherW).1 = 2 ∧
      (episode_datapoints (play_episode cfgW true envW dimacsW spW cuberW
        brancherW)).length = 2 ∧
      freshCount (play_episode cfgW true envW dimacsW spW cuberW
        brancherW).1 = 2 ∧
      ¬ freshCount (play_episode cfgW true envW dimacsW spW cuberW
          brancherW).1 =
        1 + queryCount (play_episode cfgW true envW dimacsW spW cuberW
          brancherW).1 := by
  rw [play_episode_train cfgW envW dimacsW spW cuberW brancherW trailW
    coreW 0 rfl, min_trail_W_eval, gen_loop_envW_eval]
  exact ⟨rfl, rfl, rfl, by decide⟩

/-- C5 amended: during training-sample generation a single fresh solver is
built, once, before the loop — a successful training episode's trace
contains exactly two solver constructions overall (one for the search, one
for generation) — and each processed index `i` queries that same solver
with the assumption prefix `min_trail[0:i]`: the `j`-th generation query
carries the assumptions `min_trail.take j`. -/
theorem C5_single_generation_solver (cfg : ActorCfg) (env : Env)
    (dimacs : String) (sp : SP) (cuber brancher : String)
    (trail core : List Lit) (estimate : ℝ)
    (hres : env.asatResult = some (trail, core, estimate)) :
    freshCount (play_episode cfg true env dimacs sp cuber brancher).1 =
        2 ∧
      ∀ j, j < (queryArgs (play_episode cfg true env dimacs sp cuber
          brancher).1).length →
        (queryArgs (play_episode cfg true env dimacs sp cuber
            brancher).1).getD j [] = (min_trail trail core).take j := by
  refine ⟨episode_fresh_count cfg env dimacs sp cuber brancher trail core
    estimate hres, ?_⟩
  intro j hj
  rw [episode_query_args cfg env dimacs sp cuber brancher trail core
    estimate hres] at hj ⊢
  simpa using gen_loop_query_args env cfg sp (min_trail trail core) 0 j hj

/-- Witness for the amended C5 at a concrete successful episode. -/
theorem C5_witness :
    envW.asatResult = some (trailW, coreW, 0) ∧
      freshCount (play_episode cfgW true envW dimacsW spW cuberW
        brancherW).1 = 2 ∧
      1 < (queryArgs (play_episode cfgW true envW dimacsW spW cuberW
        brancherW).1).length ∧
      (queryArgs (play_episode cfgW true envW dimacsW spW cuberW
          brancherW).1).getD 1 [] = (min_trail trailW coreW).take 1 := by
  refine ⟨rfl, (C5_single_generation_solver cfgW envW dimacsW spW cuberW
    brancherW trailW coreW 0 rfl).1, ?_, ?_⟩
  · rw [play_episode_train cfgW envW dimacsW spW cuberW brancherW trailW
      coreW 0 rfl, min_trail_W_eval, gen_loop_envW_eval]
    decide
  · refine (C5_single_generation_solver cfgW envW dimacsW spW cuberW
      brancherW trailW coreW 0 rfl).2 1 ?_
    rw [play_episode_train cfgW envW dimacsW spW cuberW brancherW trailW
      coreW 0 rfl, min_trail_W_eval, gen_loop_envW_eval]
    decide

/-- C4 counterexample: in the 3-variable/2-constraint scenario with a
trail of 3 literals and a core of 2 of them (and `decay_rate = 1/2 < 1`),
the two produced target values are NOT decreasing as the index increases —
the later example carries the strictly larger value. -/
theorem C4_counterexample :
    cfgW.v_reward_decay < 1 ∧ spW.n_vars = 3 ∧ spW.n_clauses = 2 ∧
      trailW.length = 3 ∧ coreW.length = 2 ∧ coreW ⊆ trailW ∧
      (episode_datapoints (play_episode cfgW true envW dimacsW spW cuberW
        brancherW)).length = 2 ∧
      ¬ ((episode_datapoints (play_episode cfgW true envW dimacsW spW
            cuberW brancherW)).getD 1 dpDefault).target_v <
          ((episode_datapoints (play_episode cfgW true envW dimacsW spW
            cuberW brancherW)).getD 0 dpDefault).target_v := by
  have hlt : compute_v cfgW 2 < compute_v cfgW 1 :=
    compute_v_lt cfgW (by norm_num [cfgW]) (by norm_num [cfgW])
      (by norm_num [cfgW]) (by norm_num [cfgW]) (by norm_num)
  rw [play_episode_train cfgW envW dimacsW spW cuberW brancherW trailW
    coreW 0 rfl, min_trail_W_eval, gen_loop_envW_eval]
  refine ⟨by norm_num [cfgW], rfl, rfl, rfl, rfl, by decide, rfl, ?_⟩
  show ¬ compute_v cfgW 1 < compute_v cfgW 2
  exact not_lt.mpr hlt.le

/-- C4 amended: in the end-to-end scenario (3 variables, 2 constraints,
trail of 3 distinct literals, core of 2 of them, `0 < decay_rate < 1`,
positive `reward_base` and `decay_scale`), training-mode generation yields
at most 2 examples, each with `variable_count = 3` and
`constraint_count = 2`, and with strictly INCREASING target values as the
index increases (the steps-left argument shrinks along the trail and
`compute_v` decays in it). -/
theorem C4_scenario (cfg : ActorCfg) (env : Env) (dimacs : String)
    (sp : SP) (cuber brancher : String) (trail core : List Lit)
    (estimate : ℝ)
    (hres : env.asatResult = some (trail, core, estimate))
    (hv : sp.n_vars = 3) (hc : sp.n_clauses = 2)
    (htl : trail.length = 3) (hcl : core.length = 2)
    (hnd : trail.Nodup) (hndc : core.Nodup) (hsub : core ⊆ trail)
    (hr : 0 < cfg.v_reward) (hd0 : 0 < cfg.v_reward_decay)
    (hd1 : cfg.v_reward_decay < 1) (hs : 0 < cfg.v_reward_decay_steps) :
    (episode_datapoints (play_episode cfg true env dimacs sp cuber
        brancher)).length ≤ 2 ∧
      (∀ dp ∈ episode_datapoints (play_episode cfg true env dimacs sp
        cuber brancher), dp.n_vars = 3 ∧ dp.n_clauses = 2) ∧
      ∀ j, j + 1 < (episode_datapoints (play_episode cfg true env dimacs
          sp cuber brancher)).length →
        ((episode_datapoints (play_episode cfg true env dimacs sp cuber
            brancher)).getD j dpDefault).target_v <
          ((episode_datapoints (play_episode cfg true env dimacs sp cuber
            brancher)).getD (j + 1) dpDefault).target_v := by
  have hmt : (min_trail trail core).length = 2 := by
    rw [min_trail_length_of_nodup trail core hnd hndc hsub, hcl]
  rw [play_episode_train cfg env dimacs sp cuber brancher trail core
    estimate hres]
  refine ⟨?_, ?_, ?_⟩
  · have h := gen_loop_len env cfg sp (min_trail trail core) 0
    simp only [episode_datapoints] at h ⊢
    omega
  · intro dp hdp
    have h := gen_loop_dp_mem env cfg sp (min_trail trail core) 0 dp
      (by simpa [episode_datapoints] using hdp)
    exact ⟨h.1.trans hv, h.2.trans hc⟩
  · intro j hj
    simp only [episode_datapoints] at hj ⊢
    have hlen := gen_loop_len env cfg sp (min_trail trail core) 0
    have hj1 : j + 1 < (min_trail trail core).length := by omega
    have e0 := gen_loop_dp_getD env cfg sp (min_trail trail core) 0 j
      (by omega)
    have e1 := gen_loop_dp_getD env cfg sp (min_trail trail core) 0
      (j + 1) hj
    rw [e0, e1]
    apply compute_v_lt cfg hr hd0 hd1 hs
    omega

/-- Witness for the amended C4 at the concrete scenario. -/
theorem C4_witness :
    envW.asatResult = some (trailW, coreW, 0) ∧ spW.n_vars = 3 ∧
      spW.n_clauses = 2 ∧ trailW.length = 3 ∧ coreW.length = 2 ∧
      trailW.Nodup ∧ coreW.Nodup ∧ coreW ⊆ trailW ∧
      (0 : ℝ) < cfgW.v_reward ∧ 0 < cfgW.v_reward_decay ∧
      cfgW.v_reward_decay < 1 ∧ 0 < cfgW.v_reward_decay_steps ∧
      (episode_datapoints (play_episode cfgW true envW dimacsW spW cuberW
        brancherW)).length ≤ 2 ∧
      ((episode_datapoints (play_episode cfgW true envW dimacsW spW cuberW
          brancherW)).getD 0 dpDefault).target_v <
        ((episode_datapoints (play_episode cfgW true envW dimacsW spW
          cuberW brancherW)).getD 1 dpDefault).target_v := by
  have hthm := C4_scenario cfgW envW dimacsW spW cuberW brancherW trailW
    coreW 0 rfl rfl rfl (by decide) (by decide) (by decide) (by decide)
    (by decide) (by norm_num [cfgW]) (by norm_num [cfgW])
    (by norm_num [cfgW]) (by norm_num [cfgW])
  refine ⟨rfl, rfl, rfl, by decide, by decide, by decide, by decide,
    by decide, by norm_num [cfgW], by norm_num [cfgW], by norm_num [cfgW],
    by norm_num [cfgW], hthm.1, ?_⟩
  refine hthm.2.2 0 ?_
  rw [play_episode_train cfgW envW dimacsW spW cuberW brancherW trailW
    coreW 0 rfl, min_trail_W_eval, gen_loop_envW_eval]
  decide

end Neurocuber
